import Mathlib

deriving instance DecidableEq for Except

/-!
Verification of `mpltools/special/errorfill.py`.

The module contains a single helper `errorfill(x, y, yerr, xerr, ...)` that
plots a line and optionally fills an error band, plus the band computation
`extrema_from_error_input(z, zerr)` and two fill wrappers that add a
legend-proxy rectangle patch.

Shallow embedding choices:
- numbers are modelled by `ℚ` (the Python code does exact-looking arithmetic
  on numpy floats; the claims are about the algebra, not rounding);
- the documented contract says `x, y : arrays`, so the base sequence `z` is a
  1-D numeric array, modelled as `List ℚ`;
- the error specification `zerr` may be a scalar, a 1-D sequence, or a 2-D
  sequence of rows (the `(2, N)` case of the docstring), modelled by the
  inductive `ErrInput`;
- numpy broadcasting of `z - zerr` / `z + zerr` for a 1-D `z` against these
  shapes is modelled by `broadcastOp`; a shape mismatch is a `ValueError`;
- Python's `UnboundLocalError` (when `extrema_from_error_input` falls through
  both branches and returns unset `zmin, zmax`) and broadcasting failures are
  modelled with `Except PyErr`;
- the matplotlib axis is modelled as an explicit state `Axis`: an ordered
  list of added artists plus the position of the colour prop cycler.
  `plt.gca()` resolution is outside the model (the axis is always passed),
  and `plt.rcParams` line defaults are passed in as an `RcParams` value.
-/

namespace Errorfill

/-- Python exceptions that the code under scrutiny can surface. -/
inductive PyErr where
  | unboundLocal
  | valueError
  deriving DecidableEq, Repr

/-- The polymorphic error specification `zerr`: a scalar, a 1-D sequence of
numbers, or a 2-D sequence of rows (docstring: scalar, `N`/`(N, 1)`, or
`(2, N)` array). -/
inductive ErrInput where
  | scalar (e : ℚ)
  | vec (es : List ℚ)
  | mat (rows : List (List ℚ))
  deriving DecidableEq, Repr

/-- `np.isscalar(zerr)`. -/
def ErrInput.isscalar : ErrInput → Bool
  | .scalar _ => true
  | .vec _ => false
  | .mat _ => false

/-- `len(zerr)`: the outer length of a sequence; `none` when `len` does not
apply (a scalar). The Python guard only evaluates `len(zerr)` after
`np.isscalar(zerr)` came back false, so the `none` case is never compared. -/
def ErrInput.len : ErrInput → Option Nat
  | .scalar _ => none
  | .vec es => some es.length
  | .mat rows => some rows.length

/-- The value of a numpy arithmetic expression in this module: a 1-D or a 2-D
array. -/
inductive NDVal where
  | vec (xs : List ℚ)
  | mat (rows : List (List ℚ))
  deriving DecidableEq, Repr

/-- numpy broadcasting of a binary operation between two 1-D arrays: equal
lengths act elementwise, a length-1 operand is stretched, anything else is a
`ValueError`. -/
def broadcast1 (f : ℚ → ℚ → ℚ) (z es : List ℚ) : Except PyErr (List ℚ) :=
  if z.length = es.length then .ok (List.zipWith f z es)
  else
    match z, es with
    | [a], bs => .ok (bs.map (fun b => f a b))
    | as, [b] => .ok (as.map (fun a => f a b))
    | _, _ => .error .valueError

/-- A 2-D nested list is a rectangular array (numpy rejects ragged input). -/
def isRect (rows : List (List ℚ)) : Bool :=
  match rows with
  | [] => true
  | r :: rs => rs.all (fun s => s.length = r.length)

/-- `z OP zerr` for a 1-D `z` and the shapes of `ErrInput`, with numpy
broadcasting: a scalar is applied pointwise; a 1-D sequence broadcasts
against `z`; a 2-D array broadcasts `z` against every row. -/
def broadcastOp (f : ℚ → ℚ → ℚ) (z : List ℚ) : ErrInput → Except PyErr NDVal
  | .scalar e => .ok (.vec (z.map (fun a => f a e)))
  | .vec es => (broadcast1 f z es).map .vec
  | .mat rows =>
      if isRect rows then (rows.mapM (broadcast1 f z)).map .mat
      else .error .valueError

/-- Body of the first branch of `extrema_from_error_input`:
`zmin = z - zerr; zmax = z + zerr`. -/
def symmetricBranch (z : List ℚ) (zerr : ErrInput) : Except PyErr (NDVal × NDVal) := do
  let zmin ← broadcastOp (fun a b => a - b) z zerr
  let zmax ← broadcastOp (fun a b => a + b) z zerr
  pure (zmin, zmax)

/-- Body of the second branch of `extrema_from_error_input`:
`zmin, zmax = z - zerr[0], z + zerr[1]`. Indexing a 1-D `zerr` yields the two
scalars; indexing a 2-D `zerr` yields the two rows. The guard
`len(zerr) == 2` holds whenever this branch runs, so the other patterns are
unreachable there. -/
def twoElementBranch (z : List ℚ) : ErrInput → Except PyErr (NDVal × NDVal)
  | .vec [a, b] => .ok (.vec (z.map (fun v => v - a)), .vec (z.map (fun v => v + b)))
  | .mat [lo, hi] => do
      let zmin ← broadcast1 (fun a b => a - b) z lo
      let zmax ← broadcast1 (fun a b => a + b) z hi
      pure (.vec zmin, .vec zmax)
  | _ => .error .valueError

/-- `extrema_from_error_input(z, zerr)`:
```
if np.isscalar(zerr) or len(zerr) == len(z):
    zmin = z - zerr
    zmax = z + zerr
elif len(zerr) == 2:
    zmin, zmax = z - zerr[0], z + zerr[1]
return zmin, zmax
```
Falling through both branches leaves `zmin`, `zmax` unset and the `return`
raises `UnboundLocalError`. -/
def extrema_from_error_input (z : List ℚ) (zerr : ErrInput) :
    Except PyErr (NDVal × NDVal) :=
  if zerr.isscalar = true ∨ zerr.len = some z.length then
    symmetricBranch z zerr
  else if zerr.len = some 2 then
    twoElementBranch z zerr
  else
    .error .unboundLocal

/-- A `Line2D` produced by `ax.plot`, with the styling `errorfill` passes. -/
structure LineArtist where
  x : List ℚ
  y : List ℚ
  ls : String
  lw : ℚ
  color : ℕ
  alpha : ℚ
  label : String
  marker : Option String
  deriving DecidableEq, Repr

/-- The artists this module adds to an axis. Colours are identifiers drawn
from the axis colour cycle or supplied by the caller. -/
inductive Artist where
  | line (l : LineArtist)
  | fillBetween (x : List ℚ) (y1 y2 : NDVal) (color : ℕ) (alpha : ℚ) (label : String)
  | fillBetweenX (x : List ℚ) (y1 y2 : NDVal) (color : ℕ) (alpha : ℚ) (label : String)
  | rectangle (xy : ℚ × ℚ) (width height : ℚ) (color : ℕ) (alpha : ℚ) (label : String)
  deriving DecidableEq, Repr

/-- The drawing surface: the ordered list of artists added so far, and the
position of `ax._get_lines.prop_cycler` (each `next(...)` hands out the
current position and advances it). -/
structure Axis where
  artists : List Artist
  cycle : ℕ
  deriving DecidableEq, Repr

/-- The `plt.rcParams` line defaults read by `errorfill` when `ls` or `lw` is
not given. -/
structure RcParams where
  linesLinestyle : String
  linesLinewidth : ℚ
  deriving DecidableEq, Repr

/-- The keyword arguments `kwargs_fill = dict(color=color, alpha=alpha_fill,
label=label_fill)` handed to the fill wrappers. -/
structure FillKwargs where
  color : ℕ
  alpha : ℚ
  label : String
  deriving DecidableEq, Repr

/-- Wrapper `fill_between(x, y1, y2, ax, **kwargs)`: adds the filled region,
then an invisible `plt.Rectangle((0, 0), 0, 0, **kwargs)` proxy patch for the
legend, and returns the filled region. -/
def fill_between (x : List ℚ) (y1 y2 : NDVal) (ax : Axis) (kw : FillKwargs) :
    Axis × Artist :=
  let filly := Artist.fillBetween x y1 y2 kw.color kw.alpha kw.label
  let proxy := Artist.rectangle (0, 0) 0 0 kw.color kw.alpha kw.label
  ({ ax with artists := ax.artists ++ [filly, proxy] }, filly)

/-- Wrapper `fill_between_x(x, y1, y2, ax, **kwargs)`: same as `fill_between`
but fills along the x direction with `ax.fill_betweenx`. -/
def fill_between_x (x : List ℚ) (y1 y2 : NDVal) (ax : Axis) (kw : FillKwargs) :
    Axis × Artist :=
  let fillx := Artist.fillBetweenX x y1 y2 kw.color kw.alpha kw.label
  let proxy := Artist.rectangle (0, 0) 0 0 kw.color kw.alpha kw.label
  ({ ax with artists := ax.artists ++ [fillx, proxy] }, fillx)

/-- The warning text issued when both `yerr` and `xerr` are set. -/
def warnBothMsg : String :=
  "Setting both `yerr` and `xerr` is not supported. Ignore `xerr`."

/-- `errorfill(x, y, yerr, xerr, color, ls, lw, alpha, alpha_fill, label,
label_fill, ax, marker)`. Returns the axis after the call, the warnings
issued, and either the Python return value `(lines, fills)` or the exception
that escaped. The axis and warnings are reported even on an exception, since
Python has already mutated them by the time it raises. -/
def errorfill (x y : List ℚ) (yerr xerr : Option ErrInput) (color : Option ℕ)
    (ls : Option String) (lw : Option ℚ) (alpha alpha_fill : ℚ)
    (label label_fill : String) (ax : Axis) (marker : Option String)
    (rc : RcParams) :
    Axis × List String × Except PyErr (List LineArtist × Option Artist) :=
  let alphaFill := alpha_fill * alpha
  let c := color.getD ax.cycle
  let ax1 : Axis :=
    { ax with cycle := if color.isSome then ax.cycle else ax.cycle + 1 }
  let lsv := ls.getD rc.linesLinestyle
  let lwv := lw.getD rc.linesLinewidth
  let line : LineArtist :=
    { x := x, y := y, ls := lsv, lw := lwv, color := c, alpha := alpha,
      label := label, marker := marker }
  let ax2 : Axis := { ax1 with artists := ax1.artists ++ [Artist.line line] }
  let warns : List String :=
    if yerr.isSome && xerr.isSome then [warnBothMsg] else []
  let kw : FillKwargs := ⟨c, alphaFill, label_fill⟩
  match yerr with
  | some ye =>
    match extrema_from_error_input y ye with
    | .ok (ymin, ymax) =>
        let res := fill_between x ymax ymin ax2 kw
        (res.1, warns, .ok ([line], some res.2))
    | .error e => (ax2, warns, .error e)
  | none =>
    match xerr with
    | some xe =>
      match extrema_from_error_input x xe with
      | .ok (xmin, xmax) =>
          let res := fill_between_x y xmax xmin ax2 kw
          (res.1, warns, .ok ([line], some res.2))
      | .error e => (ax2, warns, .error e)
    | none => (ax2, warns, .ok ([line], none))

/-- The line artist `errorfill` builds after resolving its style defaults:
`ax.plot(x, y, linestyle=ls, linewidth=lw, color=color, alpha=alpha,
label=label, marker=marker)`. -/
def mkLine (x y : List ℚ) (ls : Option String) (lw : Option ℚ)
    (color : Option ℕ) (alpha : ℚ) (label : String) (marker : Option String)
    (ax : Axis) (rc : RcParams) : LineArtist :=
  { x := x, y := y, ls := ls.getD rc.linesLinestyle,
    lw := lw.getD rc.linesLinewidth, color := color.getD ax.cycle,
    alpha := alpha, label := label, marker := marker }

/-! Helper lemmas shared by the claim theorems. -/

/-- A scalar error takes the first branch and acts pointwise. -/
theorem extrema_scalar_eq (z : List ℚ) (e : ℚ) :
    extrema_from_error_input z (.scalar e) =
      .ok (.vec (z.map (fun v => v - e)), .vec (z.map (fun v => v + e))) := rfl

/-- A same-length error sequence takes the first branch and acts
elementwise. -/
theorem extrema_samelen_eq (z es : List ℚ) (h : es.length = z.length) :
    extrema_from_error_input z (.vec es) =
      .ok (.vec (List.zipWith (fun a b => a - b) z es),
           .vec (List.zipWith (fun a b => a + b) z es)) := by
  have hb : ∀ f : ℚ → ℚ → ℚ,
      broadcastOp f z (.vec es) = .ok (.vec (List.zipWith f z es)) := by
    intro f
    show (broadcast1 f z es).map NDVal.vec = _
    unfold broadcast1
    rw [if_pos h.symm]
    rfl
  have hcond : (ErrInput.vec es).isscalar = true ∨
      (ErrInput.vec es).len = some z.length := Or.inr (congrArg some h)
  unfold extrema_from_error_input
  rw [if_pos hcond]
  unfold symmetricBranch
  rw [hb, hb]
  rfl

/-- A two-row error matrix with rows matching `z` takes the second branch
when `len z ≠ 2` and acts elementwise per row. -/
theorem extrema_pair_eq (z lo hi : List ℚ) (hz : z.length ≠ 2)
    (hlo : lo.length = z.length) (hhi : hi.length = z.length) :
    extrema_from_error_input z (.mat [lo, hi]) =
      .ok (.vec (List.zipWith (fun a b => a - b) z lo),
           .vec (List.zipWith (fun a b => a + b) z hi)) := by
  have hcond : ¬((ErrInput.mat [lo, hi]).isscalar = true ∨
      (ErrInput.mat [lo, hi]).len = some z.length) := by
    rintro (hc | hc)
    · exact absurd hc (by simp [ErrInput.isscalar])
    · have h2 : (2 : ℕ) = z.length := Option.some.inj hc
      exact hz h2.symm
  have hb1 : broadcast1 (fun a b : ℚ => a - b) z lo =
      .ok (List.zipWith (fun a b => a - b) z lo) := by
    unfold broadcast1; rw [if_pos hlo.symm]
  have hb2 : broadcast1 (fun a b : ℚ => a + b) z hi =
      .ok (List.zipWith (fun a b => a + b) z hi) := by
    unfold broadcast1; rw [if_pos hhi.symm]
  have h2 : (ErrInput.mat [lo, hi]).len = some 2 := by
    show some ([lo, hi].length) = some 2
    rfl
  unfold extrema_from_error_input
  rw [if_neg hcond, if_pos h2]
  show (do
    let zmin ← broadcast1 (fun a b => a - b) z lo
    let zmax ← broadcast1 (fun a b => a + b) z hi
    pure (NDVal.vec zmin, NDVal.vec zmax) : Except PyErr (NDVal × NDVal)) = _
  rw [hb1, hb2]
  rfl

/-- Reading `zipWith` elementwise through `getD`. -/
theorem getD_zipWith_of_lt (f : ℚ → ℚ → ℚ) (z es : List ℚ) (i : ℕ)
    (hlen : es.length = z.length) (hi : i < z.length) :
    (List.zipWith f z es).getD i 0 = f (z.getD i 0) (es.getD i 0) := by
  have h1 : i < (List.zipWith f z es).length := by
    simp only [List.length_zipWith]; omega
  rw [List.getD_eq_getElem _ _ h1, List.getD_eq_getElem _ _ hi,
    List.getD_eq_getElem _ _ (show i < es.length by omega), List.getElem_zipWith]

/-- Reading `map` elementwise through `getD`. -/
theorem getD_map_of_lt (f : ℚ → ℚ) (z : List ℚ) (i : ℕ) (hi : i < z.length) :
    (z.map f).getD i 0 = f (z.getD i 0) := by
  rw [List.getD_eq_getElem _ _ (by simpa using hi), List.getD_eq_getElem _ _ hi,
    List.getElem_map]

/-! The claim theorems. -/

/-- Claim C1: for a scalar error, or an error sequence whose length equals
the base sequence's length, `extrema_from_error_input` returns
`zmin = z - zerr` and `zmax = z + zerr`, elementwise for all `i`. -/
theorem claim1_symmetric_band (z es : List ℚ) (e : ℚ) (i : ℕ)
    (hlen : es.length = z.length) (hi : i < z.length) :
    extrema_from_error_input z (.scalar e) =
      .ok (.vec (z.map (fun v => v - e)), .vec (z.map (fun v => v + e)))
    ∧ extrema_from_error_input z (.vec es) =
      .ok (.vec (List.zipWith (fun a b => a - b) z es),
           .vec (List.zipWith (fun a b => a + b) z es))
    ∧ (z.map (fun v => v - e)).getD i 0 = z.getD i 0 - e
    ∧ (z.map (fun v => v + e)).getD i 0 = z.getD i 0 + e
    ∧ (List.zipWith (fun a b => a - b) z es).getD i 0 = z.getD i 0 - es.getD i 0
    ∧ (List.zipWith (fun a b => a + b) z es).getD i 0 = z.getD i 0 + es.getD i 0 :=
  ⟨extrema_scalar_eq z e, extrema_samelen_eq z es hlen,
    getD_map_of_lt _ z i hi, getD_map_of_lt _ z i hi,
    getD_zipWith_of_lt _ z es i hlen hi, getD_zipWith_of_lt _ z es i hlen hi⟩

/-- Witness for C1 at `z = [10, 20], es = [1, 2], e = 3, i = 1`. -/
theorem claim1_symmetric_band_witness :
    (([1, 2] : List ℚ).length = ([10, 20] : List ℚ).length ∧
      1 < ([10, 20] : List ℚ).length) ∧
    (extrema_from_error_input [10, 20] (.scalar 3) =
        .ok (.vec [7, 17], .vec [13, 23])
      ∧ extrema_from_error_input [10, 20] (.vec [1, 2]) =
        .ok (.vec [9, 18], .vec [11, 22])) := by
  refine ⟨⟨by decide, by decide⟩, ?_⟩
  have h := claim1_symmetric_band [10, 20] [1, 2] 3 1 (by decide) (by decide)
  exact ⟨by rw [h.1]; norm_num, by rw [h.2.1]; norm_num⟩

/-- Claim C2 counterexample: for the two-point series `z = [0, 0]` with the
asymmetric pair `lo = [1, 1]`, `hi = [2, 2]`, the code does NOT return the
claimed elementwise band `([z0 - lo0, z1 - lo1], [z0 + hi0, z1 + hi1])`:
the same-length guard fires first and broadcasts `z` against the matrix. -/
theorem claim2_pair_counterexample :
    extrema_from_error_input [0, 0] (.mat [[1, 1], [2, 2]]) ≠
      .ok (.vec [0 - 1, 0 - 1], .vec [0 + 2, 0 + 2]) := by decide

/-- Claim C2, amended: for a pair of sequences `(lo, hi)` each of the base
sequence's length, and a base sequence whose length is not 2 (so the
same-length guard does not steal the input), the band is
`zmin[i] = z[i] - lo[i]`, `zmax[i] = z[i] + hi[i]` elementwise. -/
theorem claim2_pair_band_amended (z lo hi : List ℚ) (i : ℕ) (hz : z.length ≠ 2)
    (hlo : lo.length = z.length) (hhi : hi.length = z.length)
    (hi2 : i < z.length) :
    extrema_from_error_input z (.mat [lo, hi]) =
      .ok (.vec (List.zipWith (fun a b => a - b) z lo),
           .vec (List.zipWith (fun a b => a + b) z hi))
    ∧ (List.zipWith (fun a b => a - b) z lo).getD i 0 = z.getD i 0 - lo.getD i 0
    ∧ (List.zipWith (fun a b => a + b) z hi).getD i 0 = z.getD i 0 + hi.getD i 0 :=
  ⟨extrema_pair_eq z lo hi hz hlo hhi,
    getD_zipWith_of_lt _ z lo i hlo hi2,
    getD_zipWith_of_lt _ z hi i hhi hi2⟩

/-- Witness for the amended C2 at `z = [0, 5, 10], lo = [1, 2, 3],
hi = [4, 5, 6], i = 2`. -/
theorem claim2_pair_band_amended_witness :
    (([0, 5, 10] : List ℚ).length ≠ 2 ∧ ([1, 2, 3] : List ℚ).length = 3 ∧
      ([4, 5, 6] : List ℚ).length = 3 ∧ 2 < ([0, 5, 10] : List ℚ).length) ∧
    extrema_from_error_input [0, 5, 10] (.mat [[1, 2, 3], [4, 5, 6]]) =
      .ok (.vec [-1, 3, 7], .vec [4, 10, 16]) := by
  refine ⟨⟨by decide, by decide, by decide, by decide⟩, ?_⟩
  have h := claim2_pair_band_amended [0, 5, 10] [1, 2, 3] [4, 5, 6] 2
    (by decide) (by decide) (by decide) (by decide)
  rw [h.1]; norm_num

/-- Claim C6: an error input that is not a scalar, whose length differs from
the base sequence's length and is not 2, falls through both branches and the
`return zmin, zmax` raises `UnboundLocalError`. -/
theorem claim6_unsupported_shape_raises (z : List ℚ) (zerr : ErrInput)
    (hs : zerr.isscalar = false) (h1 : zerr.len ≠ some z.length)
    (h2 : zerr.len ≠ some 2) :
    extrema_from_error_input z zerr = .error .unboundLocal := by
  rw [extrema_from_error_input, if_neg, if_neg h2]
  rintro (h | h)
  · rw [hs] at h; exact Bool.false_ne_true h
  · exact h1 h

/-- Witness for C6: a length-3 error sequence on a length-1 series. -/
theorem claim6_unsupported_shape_raises_witness :
    ((ErrInput.vec [1, 2, 3]).isscalar = false ∧
      (ErrInput.vec [1, 2, 3]).len ≠ some ([(0 : ℚ)] : List ℚ).length ∧
      (ErrInput.vec [1, 2, 3]).len ≠ some 2) ∧
    extrema_from_error_input [0] (.vec [1, 2, 3]) = .error .unboundLocal :=
  ⟨⟨by decide, by decide, by decide⟩,
    claim6_unsupported_shape_raises [0] (.vec [1, 2, 3])
      (by decide) (by decide) (by decide)⟩

/-- Claim C7: for a scalar error `e` the computed band has constant width
`2 * e` at every index, and on `z = [0, 1, 2]` with `e = 1` it is exactly
`([-1, 0, 1], [1, 2, 3])`. -/
theorem claim7_scalar_band_width :
    (∀ (z : List ℚ) (e : ℚ) (i : ℕ), i < z.length →
      ∃ zmin zmax : List ℚ,
        extrema_from_error_input z (.scalar e) = .ok (.vec zmin, .vec zmax)
          ∧ zmax.getD i 0 - zmin.getD i 0 = 2 * e)
    ∧ extrema_from_error_input [0, 1, 2] (.scalar 1) =
        .ok (.vec [-1, 0, 1], .vec [1, 2, 3]) := by
  refine ⟨fun z e i hi => ?_, by rw [extrema_scalar_eq]; norm_num⟩
  refine ⟨z.map (fun v => v - e), z.map (fun v => v + e), extrema_scalar_eq z e, ?_⟩
  rw [getD_map_of_lt _ z i hi, getD_map_of_lt _ z i hi]
  ring

/-- Witness for C7 at `z = [5], e = 4, i = 0`. -/
theorem claim7_scalar_band_width_witness :
    0 < ([(5 : ℚ)] : List ℚ).length ∧
    ∃ zmin zmax : List ℚ,
      extrema_from_error_input [5] (.scalar 4) = .ok (.vec zmin, .vec zmax)
        ∧ zmax.getD 0 0 - zmin.getD 0 0 = 2 * 4 :=
  ⟨by decide, claim7_scalar_band_width.1 [5] 4 0 (by decide)⟩

/-- Claim C9: when both the base sequence and the error input have length 2,
the same-length guard fires first, so the symmetric branch runs and the
two-element asymmetric branch never does; a flat two-element error `[a, b]`
on a two-point series is hence read as per-point symmetric error. -/
theorem claim9_two_point_two_element :
    (∀ (z : List ℚ) (zerr : ErrInput), z.length = 2 → zerr.len = some 2 →
      extrema_from_error_input z zerr = symmetricBranch z zerr)
    ∧ (∀ z0 z1 a b : ℚ,
      extrema_from_error_input [z0, z1] (.vec [a, b]) =
        .ok (.vec [z0 - a, z1 - b], .vec [z0 + a, z1 + b])) := by
  constructor
  · intro z zerr hz hlen
    rw [extrema_from_error_input, if_pos (Or.inr (by rw [hlen, hz]))]
  · intro z0 z1 a b
    rfl

/-- Claim C3: supplying both `yerr` and `xerr` issues exactly one warning,
the whole call result does not depend on the value of `xerr`, and the axis
and return value are the same as for the call without `xerr` (so only the
y-error band, computed from `extrema_from_error_input(y, yerr)`, is
filled). -/
theorem claim3_both_errors_warns_and_ignores_xerr
    (x y : List ℚ) (ye xe xe2 : ErrInput) (color : Option ℕ) (ls : Option String)
    (lw : Option ℚ) (alpha alpha_fill : ℚ) (label label_fill : String) (ax : Axis)
    (marker : Option String) (rc : RcParams) :
    (errorfill x y (some ye) (some xe) color ls lw alpha alpha_fill label
        label_fill ax marker rc).2.1 = [warnBothMsg]
    ∧ errorfill x y (some ye) (some xe) color ls lw alpha alpha_fill label
        label_fill ax marker rc
      = errorfill x y (some ye) (some xe2) color ls lw alpha alpha_fill label
        label_fill ax marker rc
    ∧ (errorfill x y (some ye) (some xe) color ls lw alpha alpha_fill label
        label_fill ax marker rc).1
      = (errorfill x y (some ye) none color ls lw alpha alpha_fill label
        label_fill ax marker rc).1
    ∧ (errorfill x y (some ye) (some xe) color ls lw alpha alpha_fill label
        label_fill ax marker rc).2.2
      = (errorfill x y (some ye) none color ls lw alpha alpha_fill label
        label_fill ax marker rc).2.2 := by
  cases hex : extrema_from_error_input y ye with
  | ok p =>
    obtain ⟨ymin, ymax⟩ := p
    refine ⟨?_, ?_, ?_, ?_⟩ <;> simp [errorfill, hex, fill_between]
  | error e =>
    refine ⟨?_, ?_, ?_, ?_⟩ <;> simp [errorfill, hex]

/-- Claim C4: whichever fill operation a call reaches — `fill_between` on a
y-error (with or without a simultaneous x-error) or `fill_between_x` on an
x-error-only call — the opacity handed to it is the product
`alpha * alpha_fill`, and for genuine opacities (`0 ≤ alpha`,
`alpha_fill ≤ 1`) the fill is at most as opaque as the line. -/
theorem claim4_fill_opacity (x y : List ℚ) (ye xe : ErrInput)
    (xerr : Option ErrInput) (color : Option ℕ) (ls : Option String)
    (lw : Option ℚ) (alpha alpha_fill : ℚ) (label label_fill : String)
    (ax : Axis) (marker : Option String) (rc : RcParams)
    (ymin ymax xmin xmax : NDVal)
    (hey : extrema_from_error_input y ye = .ok (ymin, ymax))
    (hex : extrema_from_error_input x xe = .ok (xmin, xmax))
    (ha : 0 ≤ alpha) (hf : alpha_fill ≤ 1) :
    (∃ lines, (errorfill x y (some ye) xerr color ls lw alpha alpha_fill label
        label_fill ax marker rc).2.2
      = .ok (lines, some (Artist.fillBetween x ymax ymin (color.getD ax.cycle)
          (alpha * alpha_fill) label_fill)))
    ∧ (∃ lines, (errorfill x y none (some xe) color ls lw alpha alpha_fill label
        label_fill ax marker rc).2.2
      = .ok (lines, some (Artist.fillBetweenX y xmax xmin (color.getD ax.cycle)
          (alpha * alpha_fill) label_fill)))
    ∧ alpha * alpha_fill ≤ alpha := by
  refine ⟨⟨[mkLine x y ls lw color alpha label marker ax rc], ?_⟩,
    ⟨[mkLine x y ls lw color alpha label marker ax rc], ?_⟩, ?_⟩
  · simp [errorfill, mkLine, hey, fill_between, mul_comm]
  · simp [errorfill, mkLine, hex, fill_between_x, mul_comm]
  · calc alpha * alpha_fill ≤ alpha * 1 := mul_le_mul_of_nonneg_left hf ha
      _ = alpha := mul_one alpha

/-- Witness for C4: scalar error 1 on one-point series, `alpha = 1/2`,
`alpha_fill = 1/2`, so both fill directions get opacity `1/4 ≤ 1/2`. -/
theorem claim4_fill_opacity_witness :
    (extrema_from_error_input [0] (.scalar 1) = .ok (.vec [-1], .vec [1])
      ∧ extrema_from_error_input [2] (.scalar 1) = .ok (.vec [1], .vec [3])
      ∧ (0 : ℚ) ≤ 1/2 ∧ (1/2 : ℚ) ≤ 1) ∧
    ((∃ lines, (errorfill [2] [0] (some (.scalar 1)) none (some 0) none none
        (1/2) (1/2) "" "" ⟨[], 0⟩ none ⟨"", 1⟩).2.2
      = .ok (lines, some (Artist.fillBetween [2] (.vec [1]) (.vec [-1])
          ((some 0).getD (Axis.mk [] 0).cycle) ((1/2) * (1/2)) "")))
    ∧ (∃ lines, (errorfill [2] [0] none (some (.scalar 1)) (some 0) none none
        (1/2) (1/2) "" "" ⟨[], 0⟩ none ⟨"", 1⟩).2.2
      = .ok (lines, some (Artist.fillBetweenX [0] (.vec [3]) (.vec [1])
          ((some 0).getD (Axis.mk [] 0).cycle) ((1/2) * (1/2)) "")))
    ∧ (1/2 : ℚ) * (1/2) ≤ 1/2) := by
  have h1 : extrema_from_error_input [0] (.scalar 1) = .ok (.vec [-1], .vec [1]) := by
    rw [extrema_scalar_eq]; norm_num
  have h2 : extrema_from_error_input [2] (.scalar 1) = .ok (.vec [1], .vec [3]) := by
    rw [extrema_scalar_eq]; norm_num
  exact ⟨⟨h1, h2, by norm_num, by norm_num⟩,
    claim4_fill_opacity [2] [0] (.scalar 1) (.scalar 1) none (some 0) none none
      (1/2) (1/2) "" "" ⟨[], 0⟩ none ⟨"", 1⟩ (.vec [-1]) (.vec [1]) (.vec [1])
      (.vec [3]) h1 h2 (by norm_num) (by norm_num)⟩

/-- Claim C5: with neither `yerr` nor `xerr`, the line is still plotted,
no warning is issued, and the return value is `(lines, None)` with the
explicit no-fill marker. -/
theorem claim5_no_error_no_fill (x y : List ℚ) (color : Option ℕ)
    (ls : Option String) (lw : Option ℚ) (alpha alpha_fill : ℚ)
    (label label_fill : String) (ax : Axis) (marker : Option String)
    (rc : RcParams) :
    ∃ la : LineArtist, la.x = x ∧ la.y = y ∧ la.alpha = alpha ∧ la.label = label ∧
      errorfill x y none none color ls lw alpha alpha_fill label label_fill ax
          marker rc
        = ({ artists := ax.artists ++ [Artist.line la],
             cycle := if color.isSome then ax.cycle else ax.cycle + 1 }, [],
           .ok ([la], none)) :=
  ⟨mkLine x y ls lw color alpha label marker ax rc, rfl, rfl, rfl, rfl, rfl⟩

/-- Claim C8: a successful call with an error specification — y-error only,
x-error only, or both at once (where the y band wins) — adds exactly the
line, the filled region, and one invisible zero-size rectangle patch whose
colour, opacity and label equal the fill's; a call without an error
specification adds the line only. -/
theorem claim8_legend_proxy_patch
    (x y : List ℚ) (ye xe : ErrInput) (color : Option ℕ) (ls : Option String)
    (lw : Option ℚ) (alpha alpha_fill : ℚ) (label label_fill : String) (ax : Axis)
    (marker : Option String) (rc : RcParams) (ymin ymax xmin xmax : NDVal)
    (hey : extrema_from_error_input y ye = .ok (ymin, ymax))
    (hex : extrema_from_error_input x xe = .ok (xmin, xmax)) :
    (∃ la : LineArtist,
      (errorfill x y (some ye) none color ls lw alpha alpha_fill label label_fill
          ax marker rc).1.artists
        = ax.artists ++ [Artist.line la,
            Artist.fillBetween x ymax ymin (color.getD ax.cycle)
              (alpha_fill * alpha) label_fill,
            Artist.rectangle (0, 0) 0 0 (color.getD ax.cycle)
              (alpha_fill * alpha) label_fill])
    ∧ (∃ la : LineArtist,
      (errorfill x y none (some xe) color ls lw alpha alpha_fill label label_fill
          ax marker rc).1.artists
        = ax.artists ++ [Artist.line la,
            Artist.fillBetweenX y xmax xmin (color.getD ax.cycle)
              (alpha_fill * alpha) label_fill,
            Artist.rectangle (0, 0) 0 0 (color.getD ax.cycle)
              (alpha_fill * alpha) label_fill])
    ∧ (∃ la : LineArtist,
      (errorfill x y (some ye) (some xe) color ls lw alpha alpha_fill label
          label_fill ax marker rc).1.artists
        = ax.artists ++ [Artist.line la,
            Artist.fillBetween x ymax ymin (color.getD ax.cycle)
              (alpha_fill * alpha) label_fill,
            Artist.rectangle (0, 0) 0 0 (color.getD ax.cycle)
              (alpha_fill * alpha) label_fill])
    ∧ (∃ la : LineArtist,
      (errorfill x y none none color ls lw alpha alpha_fill label label_fill
          ax marker rc).1.artists = ax.artists ++ [Artist.line la]) := by
  refine ⟨⟨mkLine x y ls lw color alpha label marker ax rc, ?_⟩,
    ⟨mkLine x y ls lw color alpha label marker ax rc, ?_⟩,
    ⟨mkLine x y ls lw color alpha label marker ax rc, ?_⟩,
    ⟨mkLine x y ls lw color alpha label marker ax rc, ?_⟩⟩ <;>
    simp [errorfill, mkLine, hey, hex, fill_between, fill_between_x]

/-- Witness for C8: scalar errors on one-point series. -/
theorem claim8_legend_proxy_patch_witness :
    (extrema_from_error_input [0] (.scalar 1) = .ok (.vec [-1], .vec [1])
      ∧ extrema_from_error_input [2] (.scalar 1) = .ok (.vec [1], .vec [3])) ∧
    (∃ la : LineArtist,
      (errorfill [2] [0] (some (.scalar 1)) none (some 0) none none 1 1 "" ""
          ⟨[], 0⟩ none ⟨"", 1⟩).1.artists
        = ([] : List Artist) ++ [Artist.line la,
            Artist.fillBetween [2] (.vec [1]) (.vec [-1])
              ((some 0).getD (Axis.mk [] 0).cycle) (1 * 1) "",
            Artist.rectangle (0, 0) 0 0
              ((some 0).getD (Axis.mk [] 0).cycle) (1 * 1) ""]) := by
  have h1 : extrema_from_error_input [0] (.scalar 1) = .ok (.vec [-1], .vec [1]) := by
    rw [extrema_scalar_eq]; norm_num
  have h2 : extrema_from_error_input [2] (.scalar 1) = .ok (.vec [1], .vec [3]) := by
    rw [extrema_scalar_eq]; norm_num
  exact ⟨⟨h1, h2⟩,
    (claim8_legend_proxy_patch [2] [0] (.scalar 1) (.scalar 1) (some 0) none none
      1 1 "" "" ⟨[], 0⟩ none ⟨"", 1⟩ (.vec [-1]) (.vec [1]) (.vec [1]) (.vec [3])
      h1 h2).1⟩

/-- Claim C10: the line is plotted before the band is computed, so whenever
the call ends in an exception the axis has already received the line
artist. -/
theorem claim10_line_added_before_failure
    (x y : List ℚ) (yerr xerr : Option ErrInput) (color : Option ℕ)
    (ls : Option String) (lw : Option ℚ) (alpha alpha_fill : ℚ)
    (label label_fill : String) (ax : Axis) (marker : Option String)
    (rc : RcParams) (e : PyErr)
    (herr : (errorfill x y yerr xerr color ls lw alpha alpha_fill label
        label_fill ax marker rc).2.2 = .error e) :
    ∃ la : LineArtist, la.x = x ∧ la.y = y ∧
      (errorfill x y yerr xerr color ls lw alpha alpha_fill label label_fill ax
          marker rc).1.artists
        = ax.artists ++ [Artist.line la] := by
  refine ⟨mkLine x y ls lw color alpha label marker ax rc, rfl, rfl, ?_⟩
  cases yerr with
  | some ye =>
    cases hex : extrema_from_error_input y ye with
    | ok p =>
      obtain ⟨ymin, ymax⟩ := p
      simp [errorfill, hex, fill_between] at herr
    | error e2 => simp [errorfill, mkLine, hex]
  | none =>
    cases xerr with
    | some xe =>
      cases hex : extrema_from_error_input x xe with
      | ok p =>
        obtain ⟨xmin, xmax⟩ := p
        simp [errorfill, hex, fill_between_x] at herr
      | error e2 => simp [errorfill, mkLine, hex]
    | none => simp [errorfill] at herr

/-- Witness for C10: a length-3 error on a one-point series makes the band
computation raise, yet the axis holds the plotted line. -/
theorem claim10_line_added_before_failure_witness :
    ((errorfill [0] [0] (some (.vec [1, 2, 3])) none (some 0) none none 1 1 ""
        "" ⟨[], 0⟩ none ⟨"", 1⟩).2.2 = .error .unboundLocal) ∧
    ∃ la : LineArtist, la.x = [0] ∧ la.y = [0] ∧
      (errorfill [0] [0] (some (.vec [1, 2, 3])) none (some 0) none none 1 1 ""
          "" ⟨[], 0⟩ none ⟨"", 1⟩).1.artists
        = (Axis.mk [] 0).artists ++ [Artist.line la] := by
  have h : (errorfill [0] [0] (some (.vec [1, 2, 3])) none (some 0) none none 1 1
      "" "" ⟨[], 0⟩ none ⟨"", 1⟩).2.2 = .error .unboundLocal := rfl
  exact ⟨h, claim10_line_added_before_failure [0] [0] (some (.vec [1, 2, 3])) none
    (some 0) none none 1 1 "" "" ⟨[], 0⟩ none ⟨"", 1⟩ .unboundLocal h⟩

/-- Witness for C9 at `z = [1, 2], zerr = [5, 7]`. -/
theorem claim9_two_point_two_element_witness :
    (([1, 2] : List ℚ).length = 2 ∧ (ErrInput.vec [5, 7]).len = some 2) ∧
    extrema_from_error_input [1, 2] (.vec [5, 7]) =
      symmetricBranch [1, 2] (.vec [5, 7]) :=
  ⟨⟨by decide, by decide⟩,
    claim9_two_point_two_element.1 [1, 2] (.vec [5, 7]) (by decide) (by decide)⟩

end Errorfill
